import Mathlib

/-!
Shallow embedding of the DigitalPlat renewal scripts (`renew.py` and
`domains.py`).  Both scripts drive a browser through a login + per-domain
renewal flow, retry the whole run a fixed number of times, and report the
outcome through a Telegram notification step.

The embedding represents the observable effects of a run as a list of
`Event`s (browser lifecycle, notification calls, file writes, sleeps) and
represents the external world (the target website, the network, the
subprocess) by oracle values describing what each fallible step did.
Python exceptions are modelled with `Except`; `sys.exit` is modelled by the
numeric exit status the process ends with.
-/

/-- The flat result record described by the spec (timestamp, counts of
renewed/failed/skipped domains, and the domain name lists).  It is part of
the event vocabulary so that writing such a record to a file is expressible;
the theorems show no run ever emits such a write. -/
structure ResultRecord where
  timestamp : String
  renewedCount : Nat
  failedCount : Nat
  skippedCount : Nat
  renewedList : List String
  failedList : List String
  skippedList : List String
deriving DecidableEq, Repr

/-- A file artifact written during a run: the scripts write only diagnostic
`.png` screenshots; a JSON result record write is expressible but never
emitted. -/
inductive FileArtifact where
  | screenshotPng (name : String)
  | jsonResultRecord (r : ResultRecord)
deriving DecidableEq, Repr

/-- The distinct notification call sites of the two scripts. -/
inductive NotifyKind where
  | configError
  | runReport
  | finalFailure
  | scriptException
deriving DecidableEq, Repr

/-- Observable effects of a run. -/
inductive Event where
  | playwrightStart
  | browserLaunch
  | browserClose
  | playwrightStop
  | notify (k : NotifyKind)
  | fileWrite (f : FileArtifact)
  | sleepSecs (n : Nat)
deriving DecidableEq, Repr

def isResultWrite : Event → Bool
  | .fileWrite (.jsonResultRecord _) => true
  | _ => false

def isBrowserLaunch : Event → Bool
  | .browserLaunch => true
  | _ => false

def isBrowserClose : Event → Bool
  | .browserClose => true
  | _ => false

def isNotifyKind (k : NotifyKind) : Event → Bool
  | .notify k2 => k2 == k
  | _ => false

def countEvent (p : Event → Bool) (evs : List Event) : Nat :=
  (evs.filter p).length

theorem countEvent_append (p : Event → Bool) (a b : List Event) :
    countEvent p (a ++ b) = countEvent p a + countEvent p b := by
  simp [countEvent, List.filter_append]

/-- Environment-variable configuration shared by both scripts:
`os.getenv` yields `none` when the variable is unset. -/
structure Config where
  email : Option String
  password : Option String
deriving DecidableEq, Repr

/-- Python truthiness of an optional string: `None` and the empty string
are falsy, which is what `not value` / `not CONFIG["email"]` test. -/
def pyFalsy : Option String → Bool
  | none => true
  | some s => s == ""

/-- A required credential is missing or empty. -/
def credsMissing (c : Config) : Bool :=
  pyFalsy c.email || pyFalsy c.password

/-- Where browser initialization of an attempt failed, if it did:
starting playwright, launching the browser, creating the context, or
creating the page. -/
inductive InitOutcome where
  | startExc (msg : String)
  | launchExc (msg : String)
  | contextExc (msg : String)
  | pageExc (msg : String)
  | ok
deriving DecidableEq, Repr

/-- Whether a browser process was actually launched during initialization
(it is launched before the context and page are created). -/
def browserLaunched : InitOutcome → Bool
  | .contextExc _ => true
  | .pageExc _ => true
  | .ok => true
  | _ => false

namespace RenewPy

/-! ### `renew.py` — the Telegram notification step -/

/-- What `requests.post` + `raise_for_status` did. -/
inductive PostOutcome where
  | ok2xx
  | httpError (code : Nat)
  | netError (msg : String)
deriving DecidableEq, Repr

structure TgEnv where
  tokenSet : Bool
  chatIdSet : Bool
  post : PostOutcome
deriving DecidableEq, Repr

/-- Outcome of a notification call as seen by its caller: `propagated`
is the exception escaping to the caller (if any), `errorLogged` records
whether the error branch logged. -/
structure NotifyResult where
  propagated : Option String
  errorLogged : Bool
deriving DecidableEq, Repr

def postFailed : PostOutcome → Bool
  | .ok2xx => false
  | _ => true

/-- `send_telegram_notification` (renew.py, lines 114-134): skip when the
token or chat id is unset; otherwise POST, and catch every exception
(`raise_for_status` on a non-success response, network errors, timeouts)
logging it instead of re-raising. -/
def send_telegram_notification (env : TgEnv) : NotifyResult :=
  if !env.tokenSet || !env.chatIdSet then ⟨none, false⟩
  else
    match env.post with
    | .ok2xx => ⟨none, false⟩
    | .httpError _ => ⟨none, true⟩
    | .netError _ => ⟨none, true⟩

/-! ### `renew.py` — `renew_domains` (lines 377-452) -/

/-- What happened while processing one row of the domain table. -/
inductive RowStep where
  | noRenewBtn
  | renewOk
  | confirmTimeout
  | rowExc (msg : String)
deriving DecidableEq, Repr

structure RowInfo where
  name : String
  step : RowStep
deriving DecidableEq, Repr

/-- How loading the domain table went. -/
inductive ListLoad where
  | loadTimeout
  | navExc (msg : String)
  | rowsFound (rows : List RowInfo)
deriving DecidableEq, Repr

structure RenewResult where
  renewed : List String
  failed : List String
  skipped : List String
  errors : List String
deriving DecidableEq, Repr

def emptyResult : RenewResult := ⟨[], [], [], []⟩

/-- One iteration of the row loop: a row with no renew button is skipped,
a confirmed renewal is recorded as renewed, a confirm-dialog timeout or any
other exception in the row body is caught and recorded as failed (renew.py
lines 403-445). -/
def processRow (acc : RenewResult) (r : RowInfo) : RenewResult :=
  match r.step with
  | .noRenewBtn => { acc with skipped := acc.skipped ++ [r.name] }
  | .renewOk => { acc with renewed := acc.renewed ++ [r.name] }
  | .confirmTimeout =>
      { acc with failed := acc.failed ++ [r.name],
                 errors := acc.errors ++ [r.name ++ " - 确认按钮超时"] }
  | .rowExc m =>
      { acc with failed := acc.failed ++ [r.name],
                 errors := acc.errors ++ [r.name ++ " - 处理失败: " ++ m.take 80] }

/-- `renew_domains`: the accumulators are created empty at the top of the
function; a table-load timeout records a synthetic failure entry and
returns; an exception while navigating is caught by the outer handler. -/
def renew_domains : ListLoad → RenewResult
  | .loadTimeout =>
      { emptyResult with
          failed := ["所有域名 - 列表加载失败"], errors := ["域名列表加载超时"] }
  | .navExc m => { emptyResult with errors := ["续期流程异常: " ++ m] }
  | .rowsFound rows => rows.foldl processRow emptyResult

/-- The name a row contributes to the renewed list, if any. -/
def rowRenewedName (r : RowInfo) : Option String :=
  match r.step with
  | .renewOk => some r.name
  | _ => none

/-- The name a row contributes to the failed list, if any. -/
def rowFailedName (r : RowInfo) : Option String :=
  match r.step with
  | .confirmTimeout => some r.name
  | .rowExc _ => some r.name
  | _ => none

/-- The name a row contributes to the skipped list, if any. -/
def rowSkippedName (r : RowInfo) : Option String :=
  match r.step with
  | .noRenewBtn => some r.name
  | _ => none

theorem foldl_processRow_renewed (rows : List RowInfo) (acc : RenewResult) :
    (rows.foldl processRow acc).renewed
      = acc.renewed ++ rows.filterMap rowRenewedName := by
  induction rows generalizing acc with
  | nil => simp
  | cons r rs ih =>
      cases h : r.step <;>
        simp [processRow, h, ih, rowRenewedName, List.filterMap_cons]

theorem foldl_processRow_failed (rows : List RowInfo) (acc : RenewResult) :
    (rows.foldl processRow acc).failed
      = acc.failed ++ rows.filterMap rowFailedName := by
  induction rows generalizing acc with
  | nil => simp
  | cons r rs ih =>
      cases h : r.step <;>
        simp [processRow, h, ih, rowFailedName, List.filterMap_cons]

theorem foldl_processRow_skipped (rows : List RowInfo) (acc : RenewResult) :
    (rows.foldl processRow acc).skipped
      = acc.skipped ++ rows.filterMap rowSkippedName := by
  induction rows generalizing acc with
  | nil => simp
  | cons r rs ih =>
      cases h : r.step <;>
        simp [processRow, h, ih, rowSkippedName, List.filterMap_cons]

/-- Every row contributes to exactly one of the three lists. -/
theorem row_contribution_sum (rows : List RowInfo) :
    (rows.filterMap rowRenewedName).length
      + (rows.filterMap rowFailedName).length
      + (rows.filterMap rowSkippedName).length
      = rows.length := by
  induction rows with
  | nil => simp
  | cons r rs ih =>
      cases h : r.step <;>
        · simp [rowRenewedName, rowFailedName, rowSkippedName, h,
            List.filterMap_cons]
          omega

/-! ### `renew.py` — `login` (lines 272-372)

`login` contains its own retry loop: `for attempt in range(CONFIG["max_retries"])`
with `max_retries = 5`.  Each iteration either succeeds (returns `True`),
retries, or — on the last iteration — raises.  The `return False` after the
loop is unreachable.  `input i` describes how the site behaved on the
(0-based) `i`-th internal attempt. -/

/-- The possible outcomes of one internal login attempt. -/
inductive LoginOutcome where
  | cfFail
  | cfExc (msg : String)
  | formTimeout
  | fillExc (msg : String)
  | okFast
  | okFallback
  | badCreds
deriving DecidableEq, Repr

def loginOutcomeOk : LoginOutcome → Bool
  | .okFast => true
  | .okFallback => true
  | _ => false

/-- The message of the exception raised when the last internal attempt ends
with this outcome. -/
def loginFailMsg : LoginOutcome → String
  | .cfFail => "CloudFlare验证失败"
  | .cfExc m => m
  | .formTimeout => "无法找到登录表单"
  | .fillExc m => m
  | _ => "登录失败"

/-- Screenshot taken on the last attempt before raising (only the
credentials-rejected branch takes one, line 361). -/
def loginShots : LoginOutcome → List Event
  | .badCreds => [Event.fileWrite (.screenshotPng "login_failed.png")]
  | _ => []

/-- Outcomes routed through the outer `except` sleep 10 seconds before
retrying; the explicit `continue` branches do not. -/
def loginRetrySleep : LoginOutcome → List Event
  | .cfExc _ => [Event.sleepSecs 10]
  | .fillExc _ => [Event.sleepSecs 10]
  | _ => []

structure LoginResult where
  outcome : Except String Bool
  attemptsUsed : Nat
  events : List Event
deriving Repr

def max_retries : Nat := 5

/-- The body of `login`'s retry loop: `fuel` is the number of iterations
remaining, `idx` the 0-based index of the current attempt. -/
def loginGo (input : Nat → LoginOutcome) : Nat → Nat → LoginResult
  | 0, idx => ⟨.ok false, idx, []⟩
  | fuel + 1, idx =>
      let o := input idx
      if loginOutcomeOk o then ⟨.ok true, idx + 1, []⟩
      else if fuel == 0 then ⟨.error (loginFailMsg o), idx + 1, loginShots o⟩
      else
        let rest := loginGo input fuel (idx + 1)
        ⟨rest.outcome, rest.attemptsUsed, loginRetrySleep o ++ rest.events⟩

def login (input : Nat → LoginOutcome) : LoginResult :=
  loginGo input max_retries 0

/-- Number of internal attempts `login` performs, read off the source: it
stops at the first successful attempt and otherwise exhausts all five. -/
def loginAttemptsSpec (input : Nat → LoginOutcome) : Nat :=
  match (List.range max_retries).find? (fun k => loginOutcomeOk (input k)) with
  | some k => k + 1
  | none => max_retries

theorem login_attempts_characterization (input : Nat → LoginOutcome) :
    (login input).attemptsUsed = loginAttemptsSpec input := by
  unfold login loginAttemptsSpec max_retries
  rw [show List.range 5 = [0, 1, 2, 3, 4] from rfl]
  simp only [List.find?]
  cases h0 : loginOutcomeOk (input 0) <;>
    cases h1 : loginOutcomeOk (input 1) <;>
      cases h2 : loginOutcomeOk (input 2) <;>
        cases h3 : loginOutcomeOk (input 3) <;>
          cases h4 : loginOutcomeOk (input 4) <;>
            simp [loginGo, h0, h1, h2, h3, h4]

/-- `login`'s events are screenshots and sleeps only: it performs no
notification call of any kind. -/
theorem loginGo_no_notify (input : Nat → LoginOutcome) (k : NotifyKind) :
    ∀ fuel idx, countEvent (isNotifyKind k) (loginGo input fuel idx).events = 0 := by
  intro fuel
  induction fuel with
  | zero => intro idx; simp [loginGo, countEvent]
  | succ n ih =>
      intro idx
      by_cases h : loginOutcomeOk (input idx)
      · simp [loginGo, h, countEvent]
      · by_cases hn : n = 0
        · subst hn
          simp only [loginGo, h]
          cases hi : input idx <;>
            simp [hi, loginShots, countEvent, isNotifyKind]
        · simp only [loginGo, h, if_neg hn, beq_iff_eq, if_false]
          rw [if_neg (by simp [hn])]
          simp only [countEvent_append, ih (idx + 1)]
          cases hi : input idx <;> simp [hi, loginRetrySleep, countEvent, isNotifyKind]

/-- `login` writes no JSON result record. -/
theorem loginGo_no_resultWrite (input : Nat → LoginOutcome) :
    ∀ fuel idx, countEvent isResultWrite (loginGo input fuel idx).events = 0 := by
  intro fuel
  induction fuel with
  | zero => intro idx; simp [loginGo, countEvent]
  | succ n ih =>
      intro idx
      by_cases h : loginOutcomeOk (input idx)
      · simp [loginGo, h, countEvent]
      · by_cases hn : n = 0
        · subst hn
          simp only [loginGo, h]
          cases hi : input idx <;>
            simp [hi, loginShots, countEvent, isResultWrite]
        · simp only [loginGo, h, if_neg hn, beq_iff_eq, if_false]
          rw [if_neg (by simp [hn])]
          simp only [countEvent_append, ih (idx + 1)]
          cases hi : input idx <;> simp [hi, loginRetrySleep, countEvent, isResultWrite]

/-! ### `renew.py` — `run_renewal` (lines 454-527)

Each whole-run attempt starts `playwright`, launches a browser (inside
`setup_browser_context`, which also creates the context), creates a page,
logs in, renews, and notifies.  The `finally` block closes the browser only
when the `browser` variable was assigned, and stops playwright only when
the `playwright` variable was assigned. -/

/-- Lifecycle events emitted up to the point where initialization failed
(or fully succeeded).  A browser launch is emitted as soon as
`playwright.chromium.launch` returns, even if `new_context` then raises. -/
def initPrefixEvents : InitOutcome → List Event
  | .startExc _ => []
  | .launchExc _ => [.playwrightStart]
  | .contextExc _ => [.playwrightStart, .browserLaunch]
  | .pageExc _ => [.playwrightStart, .browserLaunch]
  | .ok => [.playwrightStart, .browserLaunch]

/-- Whether the attempt's `playwright` variable got assigned. -/
def playwrightAssigned : InitOutcome → Bool
  | .startExc _ => false
  | _ => true

/-- Whether the attempt's `browser` variable got assigned.  In `renew.py`
the `playwright` variable is assigned before `setup_browser_context` runs,
but `browser` is assigned only when `setup_browser_context` returns — i.e.
after `new_context` also succeeded. -/
def browserAssigned : InitOutcome → Bool
  | .pageExc _ => true
  | .ok => true
  | _ => false

/-- The `finally` block of one attempt: `if browser: await browser.close()`
then `if playwright: await playwright.stop()`. -/
def attemptFinally (i : InitOutcome) : List Event :=
  (if browserAssigned i then [Event.browserClose] else [])
    ++ (if playwrightAssigned i then [Event.playwrightStop] else [])

/-- The oracle for one whole-run attempt of `renew.py`. -/
structure AttemptSpec where
  init : InitOutcome
  loginInput : Nat → LoginOutcome
  renewInput : ListLoad

/-- The `try` block of one attempt: initialization, anti-detection
injection, `login` (a `False` return or an exception both raise out of the
block), `renew_domains` (which never raises), report formatting and the
completion notification.  Returns whether the block completed (reaching
`break`) and the events it emitted. -/
def attemptCore (a : AttemptSpec) : Bool × List Event :=
  match a.init with
  | .ok =>
      let lr := login a.loginInput
      match lr.outcome with
      | .error _ => (false, initPrefixEvents .ok ++ lr.events)
      | .ok false => (false, initPrefixEvents .ok ++ lr.events)
      | .ok true =>
          (true, initPrefixEvents .ok ++ lr.events ++ [Event.notify .runReport])
  | i => (false, initPrefixEvents i)

/-- One full attempt including the `except` handler (final-failure
notification on the last attempt, 30-second sleep on every failure) and the
`finally` block. -/
def runAttempt (a : AttemptSpec) (isLast : Bool) : Bool × List Event :=
  ((attemptCore a).1,
    (attemptCore a).2
      ++ (if (attemptCore a).1 then []
          else (if isLast then [Event.notify .finalFailure] else [])
                 ++ [Event.sleepSecs 30])
      ++ attemptFinally a.init)

/-- The retry loop `for attempt in range(1, CONFIG["max_retries"] + 1)`:
stop at the first attempt that reaches `break`. -/
def runLoop (attempts : Nat → AttemptSpec) : Nat → Nat → List Event
  | 0, _ => []
  | fuel + 1, idx =>
      if (runAttempt (attempts idx) (fuel == 0)).1 then
        (runAttempt (attempts idx) (fuel == 0)).2
      else
        (runAttempt (attempts idx) (fuel == 0)).2 ++ runLoop attempts fuel (idx + 1)

/-- `run_renewal` plus the `__main__` wrapper: `validate_config` sends a
config-error notification and raises `SystemExit 1` when a credential is
missing (the `except Exception` in `__main__` does not catch `SystemExit`);
otherwise the retry loop runs to completion — every exception inside it is
caught — and the process exits 0.  Returns (exit status, events). -/
def run_renewal (cfg : Config) (attempts : Nat → AttemptSpec) :
    Nat × List Event :=
  if credsMissing cfg then (1, [Event.notify .configError])
  else (0, runLoop attempts max_retries 0)

/-- An attempt fails (does not reach `break`) iff its initialization or its
login failed. -/
def attemptFails (a : AttemptSpec) : Bool := !(attemptCore a).1

/-- The `finally` block emits only browser-close and playwright-stop
events. -/
theorem attemptFinally_count_zero (p : Event → Bool) (i : InitOutcome)
    (h1 : p .browserClose = false) (h2 : p .playwrightStop = false) :
    countEvent p (attemptFinally i) = 0 := by
  unfold attemptFinally countEvent
  cases hb : browserAssigned i <;> cases hp : playwrightAssigned i <;>
    simp [h1, h2]

/-- The browser-close count of the `finally` block is 1 exactly when the
`browser` variable was assigned. -/
theorem attemptFinally_close_count (i : InitOutcome) :
    countEvent isBrowserClose (attemptFinally i)
      = if browserAssigned i then 1 else 0 := by
  unfold attemptFinally countEvent
  cases hb : browserAssigned i <;> cases hp : playwrightAssigned i <;>
    simp [isBrowserClose, List.filter]

theorem attemptCore_no_finalFailure (a : AttemptSpec) :
    countEvent (isNotifyKind .finalFailure) (attemptCore a).2 = 0 := by
  have hlog : countEvent (isNotifyKind .finalFailure) (login a.loginInput).events = 0 :=
    loginGo_no_notify a.loginInput .finalFailure max_retries 0
  cases h : a.init
  case ok =>
    rcases hl : (login a.loginInput).outcome with m | b
    · simp only [attemptCore, h, hl]
      rw [countEvent_append, hlog]
      rfl
    · cases b
      · simp only [attemptCore, h, hl]
        rw [countEvent_append, hlog]
        rfl
      · simp only [attemptCore, h, hl]
        rw [countEvent_append, countEvent_append, hlog]
        rfl
  all_goals first | (simp only [attemptCore, h]; rfl)

theorem attemptCore_no_resultWrite (a : AttemptSpec) :
    countEvent isResultWrite (attemptCore a).2 = 0 := by
  have hlog : countEvent isResultWrite (login a.loginInput).events = 0 :=
    loginGo_no_resultWrite a.loginInput max_retries 0
  cases h : a.init
  case ok =>
    rcases hl : (login a.loginInput).outcome with m | b
    · simp only [attemptCore, h, hl]
      rw [countEvent_append, hlog]
      rfl
    · cases b
      · simp only [attemptCore, h, hl]
        rw [countEvent_append, hlog]
        rfl
      · simp only [attemptCore, h, hl]
        rw [countEvent_append, countEvent_append, hlog]
        rfl
  all_goals first | (simp only [attemptCore, h]; rfl)

theorem runAttempt_finalFailure_count (a : AttemptSpec) (isLast : Bool) :
    countEvent (isNotifyKind .finalFailure) (runAttempt a isLast).2
      = if (attemptCore a).1 then 0 else if isLast then 1 else 0 := by
  have h1 := attemptCore_no_finalFailure a
  have h2 := attemptFinally_count_zero (isNotifyKind .finalFailure) a.init rfl rfl
  unfold runAttempt
  cases hc : (attemptCore a).1 <;> cases isLast <;>
    · simp only [hc, Bool.false_eq_true, if_false, if_true]
      rw [countEvent_append, countEvent_append, h1, h2]
      rfl

theorem runAttempt_no_resultWrite (a : AttemptSpec) (isLast : Bool) :
    countEvent isResultWrite (runAttempt a isLast).2 = 0 := by
  have h1 := attemptCore_no_resultWrite a
  have h2 := attemptFinally_count_zero isResultWrite a.init rfl rfl
  unfold runAttempt
  cases hc : (attemptCore a).1 <;> cases isLast <;>
    · simp only [hc, Bool.false_eq_true, if_false, if_true]
      rw [countEvent_append, countEvent_append, h1, h2]
      rfl

/-- If every attempt fails, the loop emits the final-failure notification
exactly once (on the last attempt). -/
theorem runLoop_allFail_one_finalFailure (attempts : Nat → AttemptSpec)
    (h : ∀ i, attemptFails (attempts i) = true) :
    ∀ fuel idx, 0 < fuel →
      countEvent (isNotifyKind .finalFailure) (runLoop attempts fuel idx) = 1 := by
  intro fuel
  induction fuel with
  | zero => intro idx hf; omega
  | succ n ih =>
      intro idx _
      have hfail : (attemptCore (attempts idx)).1 = false := by
        have := h idx
        simpa [attemptFails] using this
      have hra : (runAttempt (attempts idx) (n == 0)).1 = false := by
        simp [runAttempt, hfail]
      have hcount := runAttempt_finalFailure_count (attempts idx) (n == 0)
      rw [hfail, if_neg (by simp)] at hcount
      by_cases hn : n = 0
      · subst hn
        simp only [beq_self_eq_true, if_true] at hcount
        simp only [runLoop, hra, Bool.false_eq_true, if_false]
        rw [countEvent_append]
        simp only [beq_self_eq_true]
        rw [hcount]
        rfl
      · have hlast : (n == 0) = false := by simp [hn]
        rw [hlast] at hcount hra
        simp only [Bool.false_eq_true, if_false] at hcount
        simp only [runLoop, hlast, hra, Bool.false_eq_true, if_false]
        rw [countEvent_append, hcount, ih (idx + 1) (Nat.pos_of_ne_zero hn)]

theorem runLoop_no_resultWrite (attempts : Nat → AttemptSpec) :
    ∀ fuel idx, countEvent isResultWrite (runLoop attempts fuel idx) = 0 := by
  intro fuel
  induction fuel with
  | zero => intro idx; rfl
  | succ n ih =>
      intro idx
      rcases hc : (runAttempt (attempts idx) (n == 0)).1 <;>
        simp [runLoop, hc, countEvent_append, runAttempt_no_resultWrite, ih]

/-- `login`'s events are only screenshots and sleeps: any predicate false
on those counts zero. -/
theorem loginGo_count_zero (input : Nat → LoginOutcome) (p : Event → Bool)
    (hs : ∀ nm, p (Event.fileWrite (.screenshotPng nm)) = false)
    (hsl : ∀ n, p (Event.sleepSecs n) = false) :
    ∀ fuel idx, countEvent p (loginGo input fuel idx).events = 0 := by
  intro fuel
  induction fuel with
  | zero => intro idx; rfl
  | succ n ih =>
      intro idx
      by_cases h : loginOutcomeOk (input idx)
      · simp [loginGo, h, countEvent]
      · by_cases hn : n = 0
        · subst hn
          simp only [loginGo, h]
          cases hi : input idx <;>
            simp [hi, loginShots, countEvent, hs]
        · simp only [loginGo, h, if_neg hn, beq_iff_eq, if_false]
          rw [if_neg (by simp [hn])]
          simp only [countEvent_append, ih (idx + 1)]
          cases hi : input idx <;> simp [hi, loginRetrySleep, countEvent, hsl]

theorem attemptCore_launch_count (a : AttemptSpec) :
    countEvent isBrowserLaunch (attemptCore a).2
      = if browserLaunched a.init then 1 else 0 := by
  have hlog : countEvent isBrowserLaunch (login a.loginInput).events = 0 :=
    loginGo_count_zero a.loginInput isBrowserLaunch (fun _ => rfl) (fun _ => rfl)
      max_retries 0
  cases h : a.init
  case ok =>
    rcases hl : (login a.loginInput).outcome with m | b
    · simp only [attemptCore, h, hl]
      rw [countEvent_append, hlog]
      rfl
    · cases b
      · simp only [attemptCore, h, hl]
        rw [countEvent_append, hlog]
        rfl
      · simp only [attemptCore, h, hl]
        rw [countEvent_append, countEvent_append, hlog]
        rfl
  all_goals first | (simp only [attemptCore, h]; rfl)

theorem attemptCore_no_close (a : AttemptSpec) :
    countEvent isBrowserClose (attemptCore a).2 = 0 := by
  have hlog : countEvent isBrowserClose (login a.loginInput).events = 0 :=
    loginGo_count_zero a.loginInput isBrowserClose (fun _ => rfl) (fun _ => rfl)
      max_retries 0
  cases h : a.init
  case ok =>
    rcases hl : (login a.loginInput).outcome with m | b
    · simp only [attemptCore, h, hl]
      rw [countEvent_append, hlog]
      rfl
    · cases b
      · simp only [attemptCore, h, hl]
        rw [countEvent_append, hlog]
        rfl
      · simp only [attemptCore, h, hl]
        rw [countEvent_append, countEvent_append, hlog]
        rfl
  all_goals first | (simp only [attemptCore, h]; rfl)

/-- Per attempt of `renew.py`: the browser is closed exactly once when the
`browser` variable was assigned and never otherwise — in particular a
browser launched inside `setup_browser_context` whose context creation
then failed is never closed. -/
theorem runAttempt_close_count (a : AttemptSpec) (isLast : Bool) :
    countEvent isBrowserClose (runAttempt a isLast).2
      = if browserAssigned a.init then 1 else 0 := by
  have h1 := attemptCore_no_close a
  have h2 := attemptFinally_close_count a.init
  unfold runAttempt
  cases hc : (attemptCore a).1 <;> cases isLast <;>
    · simp only [hc, Bool.false_eq_true, if_false, if_true]
      rw [countEvent_append, countEvent_append, h1, h2]
      cases hb : browserAssigned a.init <;>
        simp [hb, countEvent, List.filter, isBrowserClose]

theorem runAttempt_launch_count (a : AttemptSpec) (isLast : Bool) :
    countEvent isBrowserLaunch (runAttempt a isLast).2
      = if browserLaunched a.init then 1 else 0 := by
  have h1 := attemptCore_launch_count a
  have h2 := attemptFinally_count_zero isBrowserLaunch a.init rfl rfl
  unfold runAttempt
  cases hc : (attemptCore a).1 <;> cases isLast <;>
    · simp only [hc, Bool.false_eq_true, if_false, if_true]
      rw [countEvent_append, countEvent_append, h1, h2]
      cases hb : browserLaunched a.init <;>
        simp [hb, countEvent, List.filter, isBrowserLaunch]

end RenewPy

namespace DomainsPy

/-! ### `domains.py` — the Telegram notification step (`tg_send`, lines 91-107) -/

/-- What the `curl` subprocess did: it either completed with a return code,
hit the 20-second subprocess timeout (raising `TimeoutExpired`), or raised
some other exception — all exceptions are caught. -/
inductive CurlOutcome where
  | done (returncode : Int)
  | timedOut
  | subprocessExc (msg : String)
deriving DecidableEq, Repr

structure TgEnv where
  tokenSet : Bool
  chatIdSet : Bool
  curl : CurlOutcome
deriving DecidableEq, Repr

def curlFailed : CurlOutcome → Bool
  | .done rc => rc != 0
  | _ => true

/-- `tg_send`: skip when unconfigured; log an error on a nonzero curl
return code; catch and log every exception (including the subprocess
timeout).  Nothing ever propagates to the caller. -/
def tg_send (env : TgEnv) : RenewPy.NotifyResult :=
  if !env.tokenSet || !env.chatIdSet then ⟨none, false⟩
  else
    match env.curl with
    | .done rc => if rc != 0 then ⟨none, true⟩ else ⟨none, false⟩
    | .timedOut => ⟨none, true⟩
    | .subprocessExc _ => ⟨none, true⟩

/-! ### `domains.py` — `do_login` (lines 149-197)

The multi-stage login: navigate to the login page, wait for the email
input to be visible, type the email and press Enter, wait for the password
input to be visible (behind the Cloudflare interstitial), type the password
and press Enter — and then return `True` unconditionally, with no
verification of the login outcome.  The whole body is wrapped in
`try/except Exception`, which returns `False`. -/

/-- How each fallible step of `do_login` behaved.  `siteAcceptedLogin`
records whether the submitted credentials were actually accepted by the
site; `do_login` never consults it. -/
structure LoginBehavior where
  gotoOk : Bool
  emailVisible : Bool
  emailTypeOk : Bool
  passwordVisible : Bool
  passwordTypeOk : Bool
  siteAcceptedLogin : Bool
deriving DecidableEq, Repr

/-- All steps up to and including submitting the password succeeded. -/
def loginStepsOk (b : LoginBehavior) : Bool :=
  b.gotoOk && b.emailVisible && b.emailTypeOk
    && b.passwordVisible && b.passwordTypeOk

/-- The `try` body of `do_login`: each step either proceeds or raises; the
two visibility waits take a screenshot before raising. -/
def doLoginBody (b : LoginBehavior) : Except (String × List Event) Bool :=
  if !b.gotoOk then .error ("页面导航失败", [])
  else if !b.emailVisible then
    .error ("登录失败：Email 输入框未变为可见",
      [Event.fileWrite (.screenshotPng "login_email_not_visible_error.png")])
  else if !b.emailTypeOk then .error ("输入 Email 失败", [])
  else if !b.passwordVisible then
    .error ("登录失败：Password 输入框未变为可见 (卡在CF盾)",
      [Event.fileWrite (.screenshotPng "login_password_not_visible_error.png")])
  else if !b.passwordTypeOk then .error ("输入 Password 失败", [])
  else .ok true

/-- `do_login` proper: the enclosing `except Exception` turns every raise
into `return False`, so the caller always receives a boolean. -/
def do_login (b : LoginBehavior) : Bool × List Event :=
  match doLoginBody b with
  | .ok v => (v, [])
  | .error (_, evs) => (false, evs)

theorem do_login_eq_stepsOk (b : LoginBehavior) :
    (do_login b).1 = loginStepsOk b := by
  rcases b with ⟨g, ev, et, pv, pt, s⟩
  cases g <;> cases ev <;> cases et <;> cases pv <;> cases pt <;>
    simp [do_login, doLoginBody, loginStepsOk]

theorem do_login_no_resultWrite (b : LoginBehavior) :
    countEvent isResultWrite (do_login b).2 = 0 := by
  rcases b with ⟨g, ev, et, pv, pt, s⟩
  cases g <;> cases ev <;> cases et <;> cases pv <;> cases pt <;> rfl

theorem do_login_no_notify (b : LoginBehavior) (k : NotifyKind) :
    countEvent (isNotifyKind k) (do_login b).2 = 0 := by
  rcases b with ⟨g, ev, et, pv, pt, s⟩
  cases g <;> cases ev <;> cases et <;> cases pv <;> cases pt <;> rfl

/-! ### `domains.py` — `process_domain` (lines 202-263)

Visits one domain's management page and clicks through the renewal flow.
Returns `(True, None)` on a confirmed order, `(False, msg)` on any failure
— including any exception, which is caught inside the function — and
`(None, None)` when the page has no renew link. -/

/-- The possible behaviors of the renewal flow for one domain. -/
inductive PDBehavior where
  | navExc (msg : String)
  | noRenewLink
  | noOrderBtn
  | noCheckoutBtn
  | confirmFail
  | confirmOk
  | stepExc (msg : String)
deriving DecidableEq, Repr

def process_domain (name : String) (b : PDBehavior) :
    Option Bool × Option String × List Event :=
  match b with
  | .confirmOk => (some true, none, [])
  | .confirmFail =>
      (some false, some (name ++ " (确认失败)"),
        [Event.fileWrite (.screenshotPng ("error_" ++ name ++ "_confirm.png"))])
  | .noCheckoutBtn => (some false, some (name ++ " (无Checkout按钮)"), [])
  | .noOrderBtn => (some false, some (name ++ " (无Order按钮)"), [])
  | .noRenewLink => (none, none, [])
  | .navExc m =>
      (some false, some (name ++ " (异常: " ++ m ++ ")"),
        [Event.fileWrite (.screenshotPng ("error_" ++ name ++ "_exception.png"))])
  | .stepExc m =>
      (some false, some (name ++ " (异常: " ++ m ++ ")"),
        [Event.fileWrite (.screenshotPng ("error_" ++ name ++ "_exception.png"))])

theorem process_domain_no_resultWrite (name : String) (b : PDBehavior) :
    countEvent isResultWrite (process_domain name b).2.2 = 0 := by
  cases b <;> rfl

theorem process_domain_no_notify (name : String) (b : PDBehavior) (k : NotifyKind) :
    countEvent (isNotifyKind k) (process_domain name b).2.2 = 0 := by
  cases b <;> rfl

/-! ### `domains.py` — the row loop of `main` (lines 313-336)

For each row: read the `onclick` attribute (a row without one is only
logged), extract the domain name and status from the row cells, run
`process_domain`, append to the renewed/failed accumulators, and navigate
back to the domain list.  The attribute/name extraction and the
return navigation are *not* inside any per-row `try`, so an exception
there aborts the whole attempt. -/

/-- One row of the domain table as the loop sees it.  `extractExc` is an
exception raised while reading the row's attribute or cells (for example a
stale element handle after the page navigated away and back);
`returnNavExc` is an exception raised while navigating back to the list
after processing.  Either aborts the attempt. -/
inductive DRow where
  | noOnclick
  | row (name : String) (extractExc : Option String) (pd : PDBehavior)
        (returnNavExc : Option String)
deriving DecidableEq, Repr

/-- The renewed/failed accumulators of `main`.  They are initialized once,
before the retry loop (lines 279-280). -/
structure LoopState where
  renewed : List String
  failed : List String
deriving DecidableEq, Repr

def emptyState : LoopState := ⟨[], []⟩

/-- One iteration of the row loop.  An `.error` result is an exception
propagating out of the loop body; it carries the accumulator state at the
moment it was raised. -/
def rowStepState (s : LoopState) (name : String) (pd : PDBehavior) : LoopState :=
  match (process_domain name pd).1, (process_domain name pd).2.1 with
  | some true, _ => { s with renewed := s.renewed ++ [name] }
  | _, some em => { s with failed := s.failed ++ [em] }
  | _, none => s

def rowStep (s : LoopState) (r : DRow) :
    Except (String × LoopState × List Event) (LoopState × List Event) :=
  match r with
  | .noOnclick => .ok (s, [])
  | .row _ (some m) _ _ => .error (m, s, [])
  | .row name none pd retNav =>
      match retNav with
      | some m => .error (m, rowStepState s name pd, (process_domain name pd).2.2)
      | none => .ok (rowStepState s name pd, (process_domain name pd).2.2)

/-- The whole row loop, threading the (outer) accumulators. -/
def domLoopGo : List DRow → LoopState →
    Except (String × LoopState × List Event) (LoopState × List Event)
  | [], s => .ok (s, [])
  | r :: rs, s =>
      match rowStep s r with
      | .error e => .error e
      | .ok (s2, evs) =>
          match domLoopGo rs s2 with
          | .error (m, s3, evs2) => .error (m, s3, evs ++ evs2)
          | .ok (s3, evs2) => .ok (s3, evs ++ evs2)

/-! ### `domains.py` — `main` (lines 268-374)

The retry loop: `for attempt in range(1, CONFIG["max_retries"] + 1)` with
`max_retries = 3`.  Each attempt calls `init_browser` (which starts
playwright, launches the browser, creates the context and page all inside
one function — on failure *none* of the caller's variables are assigned),
runs `do_login` (raising on a `False` return), navigates to the domain
list, runs the row loop on the *outer* accumulators, sends the report and
breaks.  The `except` handler takes a diagnostic screenshot when a `page`
variable exists in `locals()` — note that it exists as soon as any earlier
attempt assigned it — then sends the final-failure notification on the
last attempt and sleeps.  The `finally` block closes the browser and stops
playwright only when `init_browser` returned. -/

/-- Events emitted by `init_browser` up to its failure point (the browser
launch is emitted even when context/page creation then raises). -/
def initEventsD : InitOutcome → List Event
  | .startExc _ => []
  | .launchExc _ => [.playwrightStart]
  | .contextExc _ => [.playwrightStart, .browserLaunch]
  | .pageExc _ => [.playwrightStart, .browserLaunch]
  | .ok => [.playwrightStart, .browserLaunch]

/-- Whether `init_browser` returned, i.e. whether the caller's
`playwright`, `browser`, `context` and `page` variables were assigned. -/
def initOkD : InitOutcome → Bool
  | .ok => true
  | _ => false

/-- The `finally` block of one attempt of `main`: since all four variables
are assigned together, the browser is closed and playwright stopped
exactly when `init_browser` returned. -/
def dFinally (i : InitOutcome) : List Event :=
  if initOkD i then [Event.browserClose, Event.playwrightStop] else []

/-- How loading the domain list page went for one attempt. -/
inductive TableLoad where
  | navExcD (msg : String)
  | rowsD (rows : List DRow)

/-- The oracle for one whole-run attempt of `domains.py`.
`handlerShotOk` states whether the diagnostic screenshot in the `except`
handler succeeds; on a page handle from an earlier attempt, whose browser
was already closed, it raises. -/
structure DAttemptSpec where
  init : InitOutcome
  loginB : LoginBehavior
  table : TableLoad
  handlerShotOk : Bool

/-- Result of an attempt's `try` block. -/
inductive TryOutcome where
  | success (s : LoopState) (evs : List Event)
  | exc (msg : String) (s : LoopState) (evs : List Event)

/-- The `try` block of one attempt of `main`. -/
def dTry (s : LoopState) (a : DAttemptSpec) : TryOutcome :=
  match a.init with
  | .ok =>
      if (do_login a.loginB).1 then
        match a.table with
        | .navExcD m => .exc m s (initEventsD .ok ++ (do_login a.loginB).2)
        | .rowsD rows =>
            match domLoopGo rows s with
            | .error (m, s2, revs) =>
                .exc m s2 (initEventsD .ok ++ (do_login a.loginB).2 ++ revs)
            | .ok (s2, revs) =>
                .success s2
                  (initEventsD .ok ++ (do_login a.loginB).2 ++ revs
                    ++ [Event.notify .runReport])
      else .exc "登录失败" s (initEventsD .ok ++ (do_login a.loginB).2)
  | i => .exc "浏览器初始化失败" s (initEventsD i)

/-- One full attempt of `main`, including the `except` handler and the
`finally` block.  `aborted` means an exception escaped the handler itself
(the diagnostic screenshot raised), terminating the retry loop. -/
structure DAttemptOut where
  succ : Bool
  aborted : Bool
  state : LoopState
  pageEver : Bool
  events : List Event

def dAttempt (s : LoopState) (pageEver : Bool) (attemptNo : Nat)
    (isLast : Bool) (a : DAttemptSpec) : DAttemptOut :=
  let pe := pageEver || initOkD a.init
  match dTry s a with
  | .success s2 evs => ⟨true, false, s2, pe, evs ++ dFinally a.init⟩
  | .exc _ s2 evs =>
      if pe && !a.handlerShotOk then
        ⟨false, true, s2, pe, evs ++ dFinally a.init⟩
      else
        ⟨false, false, s2, pe,
          evs
            ++ (if pe then
                  [Event.fileWrite (.screenshotPng
                    ("attempt_" ++ toString attemptNo ++ "_failed_screenshot.png"))]
                else [])
            ++ (if isLast then [Event.notify .finalFailure] else [])
            ++ [Event.sleepSecs 30]
            ++ dFinally a.init⟩

def max_retries : Nat := 3

/-- Cumulative output of the retry loop: the events, whether an exception
escaped it, and the accumulator state at the start of each executed
attempt. -/
structure DRunOut where
  events : List Event
  aborted : Bool
  startStates : List LoopState

/-- The retry loop of `main`, threading the outer accumulators and the
`page`-ever-assigned flag from attempt to attempt. -/
def dRunLoop (attempts : Nat → DAttemptSpec) :
    Nat → Nat → LoopState → Bool → DRunOut
  | 0, _, _, _ => ⟨[], false, []⟩
  | fuel + 1, idx, s, pageEver =>
      let out := dAttempt s pageEver (idx + 1) (fuel == 0) (attempts idx)
      if out.succ || out.aborted || fuel == 0 then ⟨out.events, out.aborted, [s]⟩
      else
        let rest := dRunLoop attempts fuel (idx + 1) out.state out.pageEver
        ⟨out.events ++ rest.events, rest.aborted, s :: rest.startStates⟩

/-- `main` plus the `__main__` wrapper: missing credentials exit 1 before
anything else; otherwise the loop runs starting from *empty* accumulators
initialized before it, and an exception escaping the loop is caught in
`__main__`, which sends a script-exception notification — the process
still exits 0. -/
def dMain (cfg : Config) (attempts : Nat → DAttemptSpec) : Nat × DRunOut :=
  if credsMissing cfg then (1, ⟨[], false, []⟩)
  else
    let out := dRunLoop attempts max_retries 0 emptyState false
    (0, ⟨out.events ++ (if out.aborted then [Event.notify .scriptException] else []),
        out.aborted, out.startStates⟩)

/-! ### `domains.py` — supporting lemmas -/

/-- The events carried by a row-loop result, whichever way it ended. -/
def exceptEvents :
    Except (String × LoopState × List Event) (LoopState × List Event) → List Event
  | .error (_, _, e) => e
  | .ok (_, e) => e

/-- The events carried by a `try`-block result. -/
def tryEvents : TryOutcome → List Event
  | .success _ e => e
  | .exc _ _ e => e

def isSuccess : TryOutcome → Bool
  | .success _ _ => true
  | .exc _ _ _ => false

theorem process_domain_count_zero (p : Event → Bool)
    (hs : ∀ nm, p (Event.fileWrite (.screenshotPng nm)) = false)
    (name : String) (b : PDBehavior) :
    countEvent p (process_domain name b).2.2 = 0 := by
  cases b <;> simp [process_domain, countEvent, hs]

theorem do_login_count_zero (p : Event → Bool)
    (hs : ∀ nm, p (Event.fileWrite (.screenshotPng nm)) = false)
    (b : LoginBehavior) :
    countEvent p (do_login b).2 = 0 := by
  rcases b with ⟨g, ev, et, pv, pt, s⟩
  cases g <;> cases ev <;> cases et <;> cases pv <;> cases pt <;>
    simp [do_login, doLoginBody, countEvent, hs]

theorem initEventsD_count_zero (p : Event → Bool)
    (h1 : p .playwrightStart = false) (h2 : p .browserLaunch = false)
    (i : InitOutcome) :
    countEvent p (initEventsD i) = 0 := by
  cases i <;> simp [initEventsD, countEvent, h1, h2]

theorem initEventsD_launch_count (i : InitOutcome) :
    countEvent isBrowserLaunch (initEventsD i)
      = if browserLaunched i then 1 else 0 := by
  cases i <;> rfl

theorem dFinally_count_zero (p : Event → Bool)
    (h1 : p .browserClose = false) (h2 : p .playwrightStop = false)
    (i : InitOutcome) :
    countEvent p (dFinally i) = 0 := by
  cases i <;> simp [dFinally, initOkD, countEvent, h1, h2]

theorem dFinally_close_count (i : InitOutcome) :
    countEvent isBrowserClose (dFinally i) = if initOkD i then 1 else 0 := by
  cases i <;> rfl

theorem domLoopGo_count_zero (p : Event → Bool)
    (hs : ∀ nm, p (Event.fileWrite (.screenshotPng nm)) = false) :
    ∀ (rows : List DRow) (s : LoopState),
      countEvent p (exceptEvents (domLoopGo rows s)) = 0 := by
  intro rows
  induction rows with
  | nil => intro s; rfl
  | cons r rs ih =>
      intro s
      cases r with
      | noOnclick =>
          have hrec := ih s
          rcases hgo : domLoopGo rs s with e | okv
          · rcases e with ⟨m, s3, e2⟩
            rw [hgo] at hrec
            simp only [domLoopGo, rowStep, hgo]
            simpa [exceptEvents, countEvent_append] using hrec
          · rcases okv with ⟨s3, e2⟩
            rw [hgo] at hrec
            simp only [domLoopGo, rowStep, hgo]
            simpa [exceptEvents, countEvent_append] using hrec
      | row name exc pd ret =>
          cases exc with
          | some m => simp [domLoopGo, rowStep, exceptEvents, countEvent]
          | none =>
              cases ret with
              | some m =>
                  simp only [domLoopGo, rowStep, exceptEvents]
                  exact process_domain_count_zero p hs name pd
              | none =>
                  have hpd := process_domain_count_zero p hs name pd
                  have hrec := ih (rowStepState s name pd)
                  simp only [domLoopGo, rowStep]
                  rcases hgo : domLoopGo rs (rowStepState s name pd) with e | okv
                  · rcases e with ⟨m, s3, e2⟩
                    rw [hgo] at hrec
                    simp only [hgo, exceptEvents, countEvent_append]
                    simp only [exceptEvents] at hrec
                    omega
                  · rcases okv with ⟨s3, e2⟩
                    rw [hgo] at hrec
                    simp only [hgo, exceptEvents, countEvent_append]
                    simp only [exceptEvents] at hrec
                    omega

/-- A row that raises outside `process_domain` (during attribute/name
extraction or the navigation back to the list) and so aborts the whole
attempt. -/
def rowAborts : DRow → Bool
  | .row _ (some _) _ _ => true
  | .row _ none _ (some _) => true
  | _ => false

def tableOk : TableLoad → Bool
  | .navExcD _ => false
  | .rowsD rows => rows.all (fun r => !rowAborts r)

/-- Whether an attempt reaches `break` — independent of the incoming
accumulator state. -/
def dAttemptSucceeds (a : DAttemptSpec) : Bool :=
  initOkD a.init && (do_login a.loginB).1 && tableOk a.table

def isOkE (e : Except (String × LoopState × List Event) (LoopState × List Event)) :
    Bool :=
  match e with
  | .ok _ => true
  | .error _ => false

theorem domLoopGo_ok_iff (rows : List DRow) :
    ∀ s, isOkE (domLoopGo rows s) = rows.all (fun r => !rowAborts r) := by
  induction rows with
  | nil => intro s; rfl
  | cons r rs ih =>
      intro s
      cases r with
      | noOnclick =>
          have hrec := ih s
          rcases hgo : domLoopGo rs s with e | okv
          · rcases e with ⟨m, s3, e2⟩
            rw [hgo] at hrec
            simp only [domLoopGo, rowStep, hgo]
            simpa [isOkE, rowAborts] using hrec
          · rcases okv with ⟨s3, e2⟩
            rw [hgo] at hrec
            simp only [domLoopGo, rowStep, hgo]
            simpa [isOkE, rowAborts] using hrec
      | row name exc pd ret =>
          cases exc with
          | some m => simp [domLoopGo, rowStep, isOkE, rowAborts]
          | none =>
              cases ret with
              | some m => simp [domLoopGo, rowStep, isOkE, rowAborts]
              | none =>
                  have hrec := ih (rowStepState s name pd)
                  simp only [domLoopGo, rowStep]
                  rcases hgo : domLoopGo rs (rowStepState s name pd) with e | okv
                  · rcases e with ⟨m, s3, e2⟩
                    rw [hgo] at hrec
                    simp only [hgo, isOkE] at hrec ⊢
                    rw [List.all_cons]
                    simp only [rowAborts, Bool.not_false, Bool.true_and]
                    exact hrec
                  · rcases okv with ⟨s3, e2⟩
                    rw [hgo] at hrec
                    simp only [hgo, isOkE] at hrec ⊢
                    rw [List.all_cons]
                    simp only [rowAborts, Bool.not_false, Bool.true_and]
                    exact hrec

theorem dTry_success_iff (s : LoopState) (a : DAttemptSpec) :
    isSuccess (dTry s a) = dAttemptSucceeds a := by
  cases hi : a.init
  case ok =>
    cases hl : (do_login a.loginB).1
    · simp [dTry, hi, hl, dAttemptSucceeds, initOkD, isSuccess]
    · cases ht : a.table with
      | navExcD m =>
          simp [dTry, hi, hl, ht, dAttemptSucceeds, initOkD, tableOk, isSuccess]
      | rowsD rows =>
          have hok := domLoopGo_ok_iff rows s
          rcases hgo : domLoopGo rows s with e | okv
          · rcases e with ⟨m, s3, e2⟩
            rw [hgo] at hok
            simp only [isOkE] at hok
            simp [dTry, hi, hl, ht, hgo, dAttemptSucceeds, initOkD, tableOk,
              isSuccess, ← hok]
          · rcases okv with ⟨s3, e2⟩
            rw [hgo] at hok
            simp only [isOkE] at hok
            simp [dTry, hi, hl, ht, hgo, dAttemptSucceeds, initOkD, tableOk,
              isSuccess, ← hok]
  all_goals simp [dTry, hi, dAttemptSucceeds, initOkD, isSuccess]

theorem dTry_count_zero (p : Event → Bool)
    (hs : ∀ nm, p (Event.fileWrite (.screenshotPng nm)) = false)
    (h1 : p .playwrightStart = false) (h2 : p .browserLaunch = false)
    (hrr : p (Event.notify .runReport) = false)
    (s : LoopState) (a : DAttemptSpec) :
    countEvent p (tryEvents (dTry s a)) = 0 := by
  have hinit := initEventsD_count_zero p h1 h2
  have hlog := do_login_count_zero p hs a.loginB
  cases hi : a.init
  case ok =>
    cases hl : (do_login a.loginB).1
    · simp only [dTry, hi, hl, Bool.false_eq_true, if_false, tryEvents]
      rw [countEvent_append, hinit, hlog]
    · cases ht : a.table with
      | navExcD m =>
          simp only [dTry, hi, hl, ht, if_true, tryEvents]
          rw [countEvent_append, hinit, hlog]
      | rowsD rows =>
          have hrows := domLoopGo_count_zero p hs rows s
          rcases hgo : domLoopGo rows s with e | okv
          · rcases e with ⟨m, s3, e2⟩
            rw [hgo] at hrows
            simp only [exceptEvents] at hrows
            simp only [dTry, hi, hl, ht, hgo, if_true, tryEvents]
            rw [countEvent_append, countEvent_append, hinit, hlog, hrows]
          · rcases okv with ⟨s3, e2⟩
            rw [hgo] at hrows
            simp only [exceptEvents] at hrows
            simp only [dTry, hi, hl, ht, hgo, if_true, tryEvents]
            rw [countEvent_append, countEvent_append, countEvent_append,
              hinit, hlog, hrows]
            simp [countEvent, List.filter, hrr]
  all_goals (simp only [dTry, hi, tryEvents]; exact hinit _)

theorem dTry_launch_count (s : LoopState) (a : DAttemptSpec) :
    countEvent isBrowserLaunch (tryEvents (dTry s a))
      = if browserLaunched a.init then 1 else 0 := by
  have hlog := do_login_count_zero isBrowserLaunch (fun _ => rfl) a.loginB
  cases hi : a.init
  case ok =>
    cases hl : (do_login a.loginB).1
    · simp only [dTry, hi, hl, Bool.false_eq_true, if_false, tryEvents]
      rw [countEvent_append, hlog]
      rfl
    · cases ht : a.table with
      | navExcD m =>
          simp only [dTry, hi, hl, ht, if_true, tryEvents]
          rw [countEvent_append, hlog]
          rfl
      | rowsD rows =>
          have hrows := domLoopGo_count_zero isBrowserLaunch (fun _ => rfl) rows s
          rcases hgo : domLoopGo rows s with e | okv
          · rcases e with ⟨m, s3, e2⟩
            rw [hgo] at hrows
            simp only [exceptEvents] at hrows
            simp only [dTry, hi, hl, ht, hgo, if_true, tryEvents]
            rw [countEvent_append, countEvent_append, hlog, hrows]
            rfl
          · rcases okv with ⟨s3, e2⟩
            rw [hgo] at hrows
            simp only [exceptEvents] at hrows
            simp only [dTry, hi, hl, ht, hgo, if_true, tryEvents]
            rw [countEvent_append, countEvent_append, countEvent_append,
              hlog, hrows]
            rfl
  all_goals (simp only [dTry, hi, tryEvents]; rfl)

/-- The accumulator state an attempt leaves behind (the state at the moment
the `try` block ended, successfully or by exception). -/
def dTryState (s : LoopState) (a : DAttemptSpec) : LoopState :=
  match dTry s a with
  | .success s2 _ => s2
  | .exc _ s2 _ => s2

theorem dAttempt_state_pageEver (s : LoopState) (pe : Bool) (n : Nat)
    (isLast : Bool) (a : DAttemptSpec) :
    (dAttempt s pe n isLast a).state = dTryState s a ∧
    (dAttempt s pe n isLast a).pageEver = (pe || initOkD a.init) := by
  rcases hgo : dTry s a with ⟨s2, evs⟩ | ⟨m, s2, evs⟩
  · simp [dAttempt, hgo, dTryState]
  · simp only [dAttempt, hgo, dTryState]
    split <;> simp

theorem dAttempt_of_fail (s : LoopState) (pe : Bool) (n : Nat) (isLast : Bool)
    (a : DAttemptSpec) (hfail : dAttemptSucceeds a = false)
    (hshot : a.handlerShotOk = true) :
    (dAttempt s pe n isLast a).succ = false ∧
    (dAttempt s pe n isLast a).aborted = false ∧
    countEvent (isNotifyKind .finalFailure) (dAttempt s pe n isLast a).events
      = if isLast then 1 else 0 := by
  have hsu := dTry_success_iff s a
  rcases hgo : dTry s a with ⟨s2, evs⟩ | ⟨m, s2, evs⟩
  · rw [hgo, hfail] at hsu
    simp [isSuccess] at hsu
  · have hevs : countEvent (isNotifyKind .finalFailure) evs = 0 := by
      have h := dTry_count_zero (isNotifyKind .finalFailure)
        (fun _ => rfl) rfl rfl rfl s a
      rw [hgo] at h
      simpa [tryEvents] using h
    have hfin := dFinally_count_zero (isNotifyKind .finalFailure) rfl rfl a.init
    simp only [dAttempt, hgo, hshot, Bool.not_true, Bool.and_false,
      Bool.false_eq_true, if_false]
    refine ⟨trivial, trivial, ?_⟩
    rw [countEvent_append, countEvent_append, countEvent_append,
      countEvent_append, hevs, hfin]
    cases hpe : (pe || initOkD a.init) <;> cases isLast <;>
      simp [countEvent, List.filter, isNotifyKind]

theorem dAttempt_no_resultWrite (s : LoopState) (pe : Bool) (n : Nat)
    (isLast : Bool) (a : DAttemptSpec) :
    countEvent isResultWrite (dAttempt s pe n isLast a).events = 0 := by
  have htry := dTry_count_zero isResultWrite (fun _ => rfl) rfl rfl rfl s a
  have hfin := dFinally_count_zero isResultWrite rfl rfl a.init
  rcases hgo : dTry s a with ⟨s2, evs⟩ | ⟨m, s2, evs⟩
  · rw [hgo] at htry
    simp only [tryEvents] at htry
    simp only [dAttempt, hgo]
    rw [countEvent_append, htry, hfin]
  · rw [hgo] at htry
    simp only [tryEvents] at htry
    simp only [dAttempt, hgo]
    split
    · rw [countEvent_append, htry, hfin]
    · rw [countEvent_append, countEvent_append, countEvent_append,
        countEvent_append, htry, hfin]
      cases hpe : (pe || initOkD a.init) <;> cases isLast <;>
        simp [countEvent, List.filter, isResultWrite]

theorem dAttempt_close_count (s : LoopState) (pe : Bool) (n : Nat)
    (isLast : Bool) (a : DAttemptSpec) :
    countEvent isBrowserClose (dAttempt s pe n isLast a).events
      = if initOkD a.init then 1 else 0 := by
  have htry := dTry_count_zero isBrowserClose (fun _ => rfl) rfl rfl rfl s a
  have hfin := dFinally_close_count a.init
  rcases hgo : dTry s a with ⟨s2, evs⟩ | ⟨m, s2, evs⟩
  · rw [hgo] at htry
    simp only [tryEvents] at htry
    simp only [dAttempt, hgo]
    rw [countEvent_append, htry, hfin, Nat.zero_add]
  · rw [hgo] at htry
    simp only [tryEvents] at htry
    simp only [dAttempt, hgo]
    split
    · rw [countEvent_append, htry, hfin, Nat.zero_add]
    · rw [countEvent_append, countEvent_append, countEvent_append,
        countEvent_append, htry, hfin]
      cases hpe : (pe || initOkD a.init) <;> cases isLast <;>
        cases hok : initOkD a.init <;>
          simp [countEvent, List.filter, isBrowserClose]

theorem dAttempt_launch_count (s : LoopState) (pe : Bool) (n : Nat)
    (isLast : Bool) (a : DAttemptSpec) :
    countEvent isBrowserLaunch (dAttempt s pe n isLast a).events
      = if browserLaunched a.init then 1 else 0 := by
  have htry := dTry_launch_count s a
  have hfin := dFinally_count_zero isBrowserLaunch rfl rfl a.init
  rcases hgo : dTry s a with ⟨s2, evs⟩ | ⟨m, s2, evs⟩
  · rw [hgo] at htry
    simp only [tryEvents] at htry
    simp only [dAttempt, hgo]
    rw [countEvent_append, htry, hfin, Nat.add_zero]
  · rw [hgo] at htry
    simp only [tryEvents] at htry
    simp only [dAttempt, hgo]
    split
    · rw [countEvent_append, htry, hfin, Nat.add_zero]
    · rw [countEvent_append, countEvent_append, countEvent_append,
        countEvent_append, htry, hfin]
      cases hpe : (pe || initOkD a.init) <;> cases isLast <;>
        cases hl : browserLaunched a.init <;>
          simp [countEvent, List.filter, isBrowserLaunch]

/-- If every attempt fails without aborting, the retry loop emits the
final-failure notification exactly once and no exception escapes it. -/
theorem dRunLoop_allFail (attempts : Nat → DAttemptSpec)
    (hfail : ∀ i, dAttemptSucceeds (attempts i) = false)
    (hshot : ∀ i, (attempts i).handlerShotOk = true) :
    ∀ fuel idx s pe, 0 < fuel →
      countEvent (isNotifyKind .finalFailure)
          (dRunLoop attempts fuel idx s pe).events = 1 ∧
      (dRunLoop attempts fuel idx s pe).aborted = false := by
  intro fuel
  induction fuel with
  | zero => intro idx s pe hf; omega
  | succ n ih =>
      intro idx s pe _
      obtain ⟨hsucc, habort, hcount⟩ :=
        dAttempt_of_fail s pe (idx + 1) (n == 0) (attempts idx)
          (hfail idx) (hshot idx)
      by_cases hn : n = 0
      · subst hn
        simp only [beq_self_eq_true, if_true] at hcount
        simp only [dRunLoop, hsucc, habort, Bool.false_or, beq_self_eq_true,
          Bool.or_true, if_true]
        exact ⟨hcount, habort⟩
      · have hlast : (n == 0) = false := by simp [hn]
        rw [hlast] at hsucc habort hcount
        simp only [Bool.false_eq_true, if_false] at hcount
        obtain ⟨hc2, ha2⟩ := ih (idx + 1)
          ((dAttempt s pe (idx + 1) (n == 0) (attempts idx)).state)
          ((dAttempt s pe (idx + 1) (n == 0) (attempts idx)).pageEver)
          (Nat.pos_of_ne_zero hn)
        rw [hlast] at hc2 ha2
        simp only [dRunLoop, hlast, hsucc, habort, Bool.false_or, Bool.or_false,
          Bool.false_eq_true, if_false]
        constructor
        · rw [countEvent_append, hcount, hc2]
        · exact ha2

theorem dRunLoop_no_resultWrite (attempts : Nat → DAttemptSpec) :
    ∀ fuel idx s pe,
      countEvent isResultWrite (dRunLoop attempts fuel idx s pe).events = 0 := by
  intro fuel
  induction fuel with
  | zero => intro idx s pe; rfl
  | succ n ih =>
      intro idx s pe
      have h1 := dAttempt_no_resultWrite s pe (idx + 1) (n == 0) (attempts idx)
      simp only [dRunLoop]
      split
      · exact h1
      · rw [countEvent_append, h1, ih]

/-- The accumulator state each executed attempt starts from: the first is
the incoming state. -/
theorem dRunLoop_startStates_head (attempts : Nat → DAttemptSpec)
    (fuel idx : Nat) (s : LoopState) (pe : Bool) (hf : 0 < fuel) :
    (dRunLoop attempts fuel idx s pe).startStates.head? = some s := by
  cases fuel with
  | zero => omega
  | succ n =>
      simp only [dRunLoop]
      split <;> rfl

/-- When an attempt fails (without aborting) and is not the last, the next
attempt starts from the state the failed attempt left behind — not from
empty accumulators. -/
theorem dRunLoop_carryover (attempts : Nat → DAttemptSpec)
    (fuel idx : Nat) (s : LoopState) (pe : Bool)
    (hfail : dAttemptSucceeds (attempts idx) = false)
    (hshot : (attempts idx).handlerShotOk = true)
    (hn : fuel ≠ 0) :
    (dRunLoop attempts (fuel + 1) idx s pe).startStates
      = s :: (dRunLoop attempts fuel (idx + 1) (dTryState s (attempts idx))
               (pe || initOkD (attempts idx).init)).startStates := by
  obtain ⟨hsucc, habort, _⟩ :=
    dAttempt_of_fail s pe (idx + 1) (fuel == 0) (attempts idx) hfail hshot
  obtain ⟨hst, hpe⟩ := dAttempt_state_pageEver s pe (idx + 1) (fuel == 0) (attempts idx)
  have hlast : (fuel == 0) = false := by simp [hn]
  rw [hlast] at hsucc habort hst hpe
  simp only [dRunLoop, hsucc, habort, hlast, Bool.false_or, Bool.or_false,
    Bool.false_eq_true, if_false, hst, hpe]

end DomainsPy

/-! ## Concrete inputs used by counterexamples and witnesses -/

/-- A configuration with both credentials present. -/
def cfgOk : Config := ⟨some "user@example.com", some "pw"⟩

/-- A `renew.py` run in which every whole-run attempt fails (playwright
fails to start on every attempt). -/
def allFailSpecR : Nat → RenewPy.AttemptSpec :=
  fun _ => ⟨InitOutcome.startExc "启动失败",
    fun _ => RenewPy.LoginOutcome.badCreds, RenewPy.ListLoad.loadTimeout⟩

/-- A `domains.py` run in which every whole-run attempt fails. -/
def allFailSpecD : Nat → DomainsPy.DAttemptSpec :=
  fun _ => ⟨InitOutcome.startExc "启动失败", ⟨true, true, true, true, true, true⟩,
    DomainsPy.TableLoad.navExcD "导航失败", true⟩

/-- A fully successful `renew.py` run with one renewed domain. -/
def okSpecR : Nat → RenewPy.AttemptSpec :=
  fun _ => ⟨InitOutcome.ok, fun _ => RenewPy.LoginOutcome.okFast,
    RenewPy.ListLoad.rowsFound [⟨"example.com", RenewPy.RowStep.renewOk⟩]⟩

/-- A login behavior whose every step succeeds. -/
def okLoginB : DomainsPy.LoginBehavior := ⟨true, true, true, true, true, true⟩

/-- A login behavior whose very first step (the page navigation) raises. -/
def failLoginB : DomainsPy.LoginBehavior := ⟨false, true, true, true, true, true⟩

/-- A `domains.py` run whose every attempt renews `a.com` and then raises
while navigating back to the domain list, so each retry inherits the
previous attempt's renewed list. -/
def carrySpecD : Nat → DomainsPy.DAttemptSpec :=
  fun _ => ⟨InitOutcome.ok, okLoginB,
    DomainsPy.TableLoad.rowsD
      [DomainsPy.DRow.row "a.com" none DomainsPy.PDBehavior.confirmOk (some "返回导航失败")],
    true⟩

/-- A `renew.py` attempt whose browser launches but whose context creation
then raises inside `setup_browser_context`. -/
def leakSpecR : RenewPy.AttemptSpec :=
  ⟨InitOutcome.contextExc "创建上下文失败",
    fun _ => RenewPy.LoginOutcome.okFast, RenewPy.ListLoad.loadTimeout⟩

/-- A single `domains.py` row whose detail page has no renew link. -/
def noLinkRow : DomainsPy.DRow :=
  DomainsPy.DRow.row "a.com" none DomainsPy.PDBehavior.noRenewLink none

/-! ## Claims -/

/-- C1 counterexample: a `renew.py` run in which all five whole-run
attempts fail sends exactly one final-failure notification but exits with
status 0, not a nonzero status as the claim states. -/
theorem c1_counterexample :
    RenewPy.attemptFails (allFailSpecR 0) = true ∧
    countEvent (isNotifyKind .finalFailure)
        (RenewPy.run_renewal cfgOk allFailSpecR).2 = 1 ∧
    (RenewPy.run_renewal cfgOk allFailSpecR).1 = 0 :=
  ⟨rfl, rfl, rfl⟩

/-- C1 (amended): for every run of either script in which the credentials
are present and every whole-run attempt fails (and, in `domains.py`, the
failure handler's diagnostic screenshot does not itself raise), the
final-failure notification call is made exactly once, and the process then
terminates normally with exit status 0 — not with a nonzero status. -/
theorem c1_amended (cfg : Config) (fR : Nat → RenewPy.AttemptSpec)
    (fD : Nat → DomainsPy.DAttemptSpec)
    (hcfg : credsMissing cfg = false)
    (hR : ∀ i, RenewPy.attemptFails (fR i) = true)
    (hD : ∀ i, DomainsPy.dAttemptSucceeds (fD i) = false)
    (hshot : ∀ i, (fD i).handlerShotOk = true) :
    countEvent (isNotifyKind .finalFailure) (RenewPy.run_renewal cfg fR).2 = 1 ∧
    (RenewPy.run_renewal cfg fR).1 = 0 ∧
    countEvent (isNotifyKind .finalFailure)
        (DomainsPy.dMain cfg fD).2.events = 1 ∧
    (DomainsPy.dMain cfg fD).1 = 0 := by
  have hr := RenewPy.runLoop_allFail_one_finalFailure fR hR RenewPy.max_retries 0
    (by norm_num [RenewPy.max_retries])
  have hd := DomainsPy.dRunLoop_allFail fD hD hshot DomainsPy.max_retries 0
    DomainsPy.emptyState false (by norm_num [DomainsPy.max_retries])
  refine ⟨?_, ?_, ?_, ?_⟩
  · simp only [RenewPy.run_renewal, hcfg, Bool.false_eq_true, if_false]
    exact hr
  · simp [RenewPy.run_renewal, hcfg]
  · simp only [DomainsPy.dMain, hcfg, Bool.false_eq_true, if_false]
    rw [hd.2]
    simp only [Bool.false_eq_true, if_false]
    rw [countEvent_append, hd.1]
    rfl
  · simp [DomainsPy.dMain, hcfg]

/-- C1 witness: the amended claim at a concrete all-fail run of each
script. -/
theorem c1_witness :
    countEvent (isNotifyKind .finalFailure)
        (RenewPy.run_renewal cfgOk allFailSpecR).2 = 1 ∧
    (RenewPy.run_renewal cfgOk allFailSpecR).1 = 0 ∧
    countEvent (isNotifyKind .finalFailure)
        (DomainsPy.dMain cfgOk allFailSpecD).2.events = 1 ∧
    (DomainsPy.dMain cfgOk allFailSpecD).1 = 0 :=
  c1_amended cfgOk allFailSpecR allFailSpecD rfl
    (fun _ => rfl) (fun _ => rfl) (fun _ => rfl)

/-- C2 counterexample: a concrete fully successful run of `renew.py`
(login succeeds, one domain renewed, the completion report is sent) whose
trace contains no JSON-result-record file write at all — the claim says
every run writes exactly one. -/
theorem c2_counterexample :
    countEvent (isNotifyKind .runReport) (RenewPy.run_renewal cfgOk okSpecR).2 = 1 ∧
    countEvent isResultWrite (RenewPy.run_renewal cfgOk okSpecR).2 = 0 :=
  ⟨rfl, rfl⟩

/-- C2 (amended): no run of either script ever writes a JSON result record
to any file.  `renew.py` only formats the counts into the notification
message, and `domains.py` builds a `report` dict that is never written or
used; the only file writes either script performs are diagnostic `.png`
screenshots (plus the line-oriented log). -/
theorem c2_amended (cfg : Config) (fR : Nat → RenewPy.AttemptSpec)
    (fD : Nat → DomainsPy.DAttemptSpec) :
    countEvent isResultWrite (RenewPy.run_renewal cfg fR).2 = 0 ∧
    countEvent isResultWrite (DomainsPy.dMain cfg fD).2.events = 0 := by
  constructor
  · by_cases hc : credsMissing cfg
    · simp [RenewPy.run_renewal, hc, countEvent, isResultWrite]
    · simp only [RenewPy.run_renewal, hc, Bool.false_eq_true, if_false]
      exact RenewPy.runLoop_no_resultWrite fR RenewPy.max_retries 0
  · by_cases hc : credsMissing cfg
    · simp [DomainsPy.dMain, hc, countEvent, isResultWrite]
    · simp only [DomainsPy.dMain, hc, Bool.false_eq_true, if_false]
      rw [countEvent_append, DomainsPy.dRunLoop_no_resultWrite]
      cases ha : (DomainsPy.dRunLoop fD DomainsPy.max_retries 0
          DomainsPy.emptyState false).aborted <;>
        simp [countEvent, List.filter, isResultWrite]

/-- C3 counterexample: in `domains.py` a row whose detail page has no
renew affordance is recorded in no list at all (there is no skipped list),
so after processing one such row the loop completes with
renewed + failed = 0 entries for 1 processed row. -/
theorem c3_counterexample :
    DomainsPy.domLoopGo [noLinkRow] DomainsPy.emptyState
        = Except.ok (DomainsPy.emptyState, []) ∧
    DomainsPy.emptyState.renewed.length + DomainsPy.emptyState.failed.length
        ≠ [noLinkRow].length :=
  ⟨rfl, by decide⟩

/-- C3 (amended): in `renew.py`'s `renew_domains`, when the table loads
and the rows are enumerated, each processed row is recorded in exactly one
of the renewed/failed/skipped lists — the three lists are exactly the
rows' per-outcome contributions and their lengths sum to the number of
rows processed (the reported counts are these lists' lengths).  In
`domains.py` there is no skipped list, and rows without an `onclick`
attribute or without a renew link are recorded in no list, so
renewed + failed can be smaller than the number of rows processed. -/
theorem c3_amended (rows : List RenewPy.RowInfo) :
    (RenewPy.renew_domains (.rowsFound rows)).renewed
        = rows.filterMap RenewPy.rowRenewedName ∧
    (RenewPy.renew_domains (.rowsFound rows)).failed
        = rows.filterMap RenewPy.rowFailedName ∧
    (RenewPy.renew_domains (.rowsFound rows)).skipped
        = rows.filterMap RenewPy.rowSkippedName ∧
    (RenewPy.renew_domains (.rowsFound rows)).renewed.length
        + (RenewPy.renew_domains (.rowsFound rows)).failed.length
        + (RenewPy.renew_domains (.rowsFound rows)).skipped.length
        = rows.length := by
  have h1 : (RenewPy.renew_domains (.rowsFound rows)).renewed
      = rows.filterMap RenewPy.rowRenewedName := by
    simpa [RenewPy.renew_domains, RenewPy.emptyResult] using
      RenewPy.foldl_processRow_renewed rows RenewPy.emptyResult
  have h2 : (RenewPy.renew_domains (.rowsFound rows)).failed
      = rows.filterMap RenewPy.rowFailedName := by
    simpa [RenewPy.renew_domains, RenewPy.emptyResult] using
      RenewPy.foldl_processRow_failed rows RenewPy.emptyResult
  have h3 : (RenewPy.renew_domains (.rowsFound rows)).skipped
      = rows.filterMap RenewPy.rowSkippedName := by
    simpa [RenewPy.renew_domains, RenewPy.emptyResult] using
      RenewPy.foldl_processRow_skipped rows RenewPy.emptyResult
  refine ⟨h1, h2, h3, ?_⟩
  rw [h1, h2, h3]
  exact RenewPy.row_contribution_sum rows

/-- C4 counterexample: a concrete `domains.py` run in which attempt 1
renews `a.com` and then fails; attempt 2 starts with the renewed list
already containing `a.com` (and attempt 3 with it twice) — the retries do
not start with empty result accumulators. -/
theorem c4_counterexample :
    (DomainsPy.dMain cfgOk carrySpecD).2.startStates
        = [⟨[], []⟩, ⟨["a.com"], []⟩, ⟨["a.com", "a.com"], []⟩] ∧
    DomainsPy.LoopState.mk ["a.com"] [] ≠ DomainsPy.emptyState :=
  ⟨rfl, by decide⟩

/-- C4 (amended): each retry starts a fresh browser session in both
scripts (every attempt performs its own launch, exactly one when its
initialization gets that far).  In `renew.py` the renewed/failed/skipped
accumulators are local to each attempt's `renew_domains` call, which
always folds its rows starting from the empty result.  In `domains.py`,
however, the renewed/failed accumulators are initialized once before the
retry loop: the first attempt starts from empty accumulators, but after a
failed, non-aborting attempt the next attempt starts from the state the
failed attempt left behind. -/
theorem c4_amended (aR : RenewPy.AttemptSpec) (isLast : Bool)
    (rows : List RenewPy.RowInfo)
    (attempts : Nat → DomainsPy.DAttemptSpec) (fuel idx : Nat)
    (s : DomainsPy.LoopState) (pe : Bool)
    (hfail : DomainsPy.dAttemptSucceeds (attempts idx) = false)
    (hshot : (attempts idx).handlerShotOk = true)
    (hn : fuel ≠ 0) :
    countEvent isBrowserLaunch (RenewPy.runAttempt aR isLast).2
        = (if browserLaunched aR.init then 1 else 0) ∧
    countEvent isBrowserLaunch
        (DomainsPy.dAttempt s pe (idx + 1) (fuel == 0) (attempts idx)).events
        = (if browserLaunched (attempts idx).init then 1 else 0) ∧
    RenewPy.renew_domains (.rowsFound rows)
        = rows.foldl RenewPy.processRow RenewPy.emptyResult ∧
    (DomainsPy.dRunLoop attempts DomainsPy.max_retries 0
        DomainsPy.emptyState false).startStates.head? = some DomainsPy.emptyState ∧
    (DomainsPy.dRunLoop attempts (fuel + 1) idx s pe).startStates
        = s :: (DomainsPy.dRunLoop attempts fuel (idx + 1)
            (DomainsPy.dTryState s (attempts idx))
            (pe || DomainsPy.initOkD (attempts idx).init)).startStates := by
  refine ⟨RenewPy.runAttempt_launch_count aR isLast,
    DomainsPy.dAttempt_launch_count s pe (idx + 1) (fuel == 0) (attempts idx),
    rfl,
    DomainsPy.dRunLoop_startStates_head attempts DomainsPy.max_retries 0
      DomainsPy.emptyState false (by norm_num [DomainsPy.max_retries]),
    DomainsPy.dRunLoop_carryover attempts fuel idx s pe hfail hshot hn⟩

/-- C4 witness: the amended claim at the concrete carry-over run. -/
theorem c4_witness :
    countEvent isBrowserLaunch (RenewPy.runAttempt leakSpecR false).2
        = (if browserLaunched leakSpecR.init then 1 else 0) ∧
    countEvent isBrowserLaunch
        (DomainsPy.dAttempt DomainsPy.emptyState false (0 + 1) (1 == 0)
          (carrySpecD 0)).events
        = (if browserLaunched (carrySpecD 0).init then 1 else 0) ∧
    RenewPy.renew_domains (.rowsFound [⟨"example.com", RenewPy.RowStep.renewOk⟩])
        = [RenewPy.RowInfo.mk "example.com" RenewPy.RowStep.renewOk].foldl
            RenewPy.processRow RenewPy.emptyResult ∧
    (DomainsPy.dRunLoop carrySpecD DomainsPy.max_retries 0
        DomainsPy.emptyState false).startStates.head? = some DomainsPy.emptyState ∧
    (DomainsPy.dRunLoop carrySpecD (1 + 1) 0 DomainsPy.emptyState false).startStates
        = DomainsPy.emptyState :: (DomainsPy.dRunLoop carrySpecD 1 (0 + 1)
            (DomainsPy.dTryState DomainsPy.emptyState (carrySpecD 0))
            (false || DomainsPy.initOkD (carrySpecD 0).init)).startStates :=
  c4_amended leakSpecR false [⟨"example.com", RenewPy.RowStep.renewOk⟩]
    carrySpecD 1 0 DomainsPy.emptyState false rfl rfl (by decide)

/-- C5 counterexample: when every internal attempt sees rejected
credentials, `renew.py`'s `login` performs five login attempts before
giving up — it is not a single login attempt and contains its own retry
loop. -/
theorem c5_counterexample :
    (RenewPy.login (fun _ => RenewPy.LoginOutcome.badCreds)).attemptsUsed = 5 ∧
    (5 : Nat) ≠ 1 :=
  ⟨rfl, by decide⟩

/-- C5 (amended): `renew.py`'s `login` retries internally: it performs
`min(first successful attempt + 1, 5)` login attempts, stopping at the
first success and raising after five failures.  `domains.py`'s `do_login`
performs a single attempt with bounded visibility waits and signals
failure by returning `False` whenever any of its steps fails. -/
theorem c5_amended (input : Nat → RenewPy.LoginOutcome)
    (b : DomainsPy.LoginBehavior) (hb : DomainsPy.loginStepsOk b = false) :
    (RenewPy.login input).attemptsUsed = RenewPy.loginAttemptsSpec input ∧
    (DomainsPy.do_login b).1 = false :=
  ⟨RenewPy.login_attempts_characterization input, by
    rw [DomainsPy.do_login_eq_stepsOk, hb]⟩

/-- C5 witness: the amended claim at a first-try-success input for
`login` and a navigation-failure behavior for `do_login`. -/
theorem c5_witness :
    (RenewPy.login (fun _ => RenewPy.LoginOutcome.okFast)).attemptsUsed
        = RenewPy.loginAttemptsSpec (fun _ => RenewPy.LoginOutcome.okFast) ∧
    (DomainsPy.do_login failLoginB).1 = false :=
  c5_amended (fun _ => RenewPy.LoginOutcome.okFast) failLoginB rfl

/-- C6: if a required credential is missing or empty, both scripts exit
with status 1 without ever launching a browser; `renew.py` additionally
makes the configuration-error notification call on the way out. -/
theorem c6_theorem (cfg : Config) (fR : Nat → RenewPy.AttemptSpec)
    (fD : Nat → DomainsPy.DAttemptSpec) (h : credsMissing cfg = true) :
    (RenewPy.run_renewal cfg fR).1 = 1 ∧
    countEvent isBrowserLaunch (RenewPy.run_renewal cfg fR).2 = 0 ∧
    countEvent (isNotifyKind .configError) (RenewPy.run_renewal cfg fR).2 = 1 ∧
    (DomainsPy.dMain cfg fD).1 = 1 ∧
    countEvent isBrowserLaunch (DomainsPy.dMain cfg fD).2.events = 0 := by
  refine ⟨?_, ?_, ?_, ?_, ?_⟩ <;>
    simp [RenewPy.run_renewal, DomainsPy.dMain, h, countEvent, List.filter,
      isBrowserLaunch, isNotifyKind]

/-- C6 witness: the theorem at a configuration with the email unset. -/
theorem c6_witness :
    (RenewPy.run_renewal ⟨none, some "pw"⟩ allFailSpecR).1 = 1 ∧
    countEvent isBrowserLaunch
        (RenewPy.run_renewal ⟨none, some "pw"⟩ allFailSpecR).2 = 0 ∧
    countEvent (isNotifyKind .configError)
        (RenewPy.run_renewal ⟨none, some "pw"⟩ allFailSpecR).2 = 1 ∧
    (DomainsPy.dMain ⟨none, some "pw"⟩ allFailSpecD).1 = 1 ∧
    countEvent isBrowserLaunch
        (DomainsPy.dMain ⟨none, some "pw"⟩ allFailSpecD).2.events = 0 :=
  c6_theorem ⟨none, some "pw"⟩ allFailSpecR allFailSpecD rfl

/-- C7 counterexample: in `domains.py`, an exception raised while
extracting a row's attributes (for example on a stale element handle)
aborts the whole attempt: the raising row is not recorded as a failure and
the following row is never attempted — both accumulators stay empty. -/
theorem c7_counterexample :
    DomainsPy.domLoopGo
        [DomainsPy.DRow.row "a.com" (some "元素已失效") DomainsPy.PDBehavior.confirmOk none,
         DomainsPy.DRow.row "b.com" none DomainsPy.PDBehavior.confirmOk none]
        DomainsPy.emptyState
      = Except.error ("元素已失效", DomainsPy.emptyState, []) :=
  rfl

/-- C7 (amended): in `renew.py` a per-row exception is caught, the row is
recorded in the failed list, and every row before and after it is still
processed and recorded exactly as it would be on its own.  In
`domains.py` only exceptions raised *inside* `process_domain` are
contained (the row is recorded as failed and the loop continues); an
exception during row attribute extraction or during the navigation back
to the list aborts the whole attempt, leaving later rows unattempted. -/
theorem c7_amended (pre post : List RenewPy.RowInfo) (n m : String)
    (s : DomainsPy.LoopState) (name msg : String) :
    (RenewPy.renew_domains (.rowsFound (pre ++ ⟨n, .rowExc m⟩ :: post))).renewed
        = (pre ++ post).filterMap RenewPy.rowRenewedName ∧
    (RenewPy.renew_domains (.rowsFound (pre ++ ⟨n, .rowExc m⟩ :: post))).failed
        = pre.filterMap RenewPy.rowFailedName
            ++ n :: post.filterMap RenewPy.rowFailedName ∧
    (RenewPy.renew_domains (.rowsFound (pre ++ ⟨n, .rowExc m⟩ :: post))).skipped
        = (pre ++ post).filterMap RenewPy.rowSkippedName ∧
    DomainsPy.rowStep s (.row name none (.stepExc msg) none)
        = Except.ok
            ({ s with failed := s.failed ++ [name ++ " (异常: " ++ msg ++ ")"] },
              [Event.fileWrite (.screenshotPng ("error_" ++ name ++ "_exception.png"))]) := by
  refine ⟨?_, ?_, ?_, rfl⟩
  · have h := RenewPy.foldl_processRow_renewed
      (pre ++ ⟨n, .rowExc m⟩ :: post) RenewPy.emptyResult
    simp only [RenewPy.renew_domains]
    rw [h]
    simp [RenewPy.emptyResult, List.filterMap_append, List.filterMap_cons,
      RenewPy.rowRenewedName]
  · have h := RenewPy.foldl_processRow_failed
      (pre ++ ⟨n, .rowExc m⟩ :: post) RenewPy.emptyResult
    simp only [RenewPy.renew_domains]
    rw [h]
    simp [RenewPy.emptyResult, List.filterMap_append, List.filterMap_cons,
      RenewPy.rowFailedName]
  · have h := RenewPy.foldl_processRow_skipped
      (pre ++ ⟨n, .rowExc m⟩ :: post) RenewPy.emptyResult
    simp only [RenewPy.renew_domains]
    rw [h]
    simp [RenewPy.emptyResult, List.filterMap_append, List.filterMap_cons,
      RenewPy.rowSkippedName]

/-- C8 counterexample: a `renew.py` attempt that launches the browser and
then fails while creating the context (still inside
`setup_browser_context`, before the caller's `browser` variable is
assigned) never closes the launched browser: one launch, zero closes on
that exit path. -/
theorem c8_counterexample :
    countEvent isBrowserLaunch (RenewPy.runAttempt leakSpecR false).2 = 1 ∧
    countEvent isBrowserClose (RenewPy.runAttempt leakSpecR false).2 = 0 :=
  ⟨rfl, rfl⟩

/-- C8 (amended): per whole-run attempt, the browser is closed exactly
once if and only if the attempt's browser variable was assigned
(`setup_browser_context` returned in `renew.py`; `init_browser` returned
in `domains.py`), on every exit path — normal completion, break, or
exception.  If the attempt fails after the browser process was launched
but before the variable was assigned (context or page creation raised),
the browser is closed zero times by that attempt. -/
theorem c8_amended (a : RenewPy.AttemptSpec) (isLast : Bool)
    (s : DomainsPy.LoopState) (pe : Bool) (n2 : Nat) (isLast2 : Bool)
    (a2 : DomainsPy.DAttemptSpec) :
    countEvent isBrowserClose (RenewPy.runAttempt a isLast).2
        = (if RenewPy.browserAssigned a.init then 1 else 0) ∧
    countEvent isBrowserClose (DomainsPy.dAttempt s pe n2 isLast2 a2).events
        = (if DomainsPy.initOkD a2.init then 1 else 0) :=
  ⟨RenewPy.runAttempt_close_count a isLast,
    DomainsPy.dAttempt_close_count s pe n2 isLast2 a2⟩

/-- C9: a failing notification step (network error, non-success HTTP
response, subprocess timeout, or nonzero curl return code) logs the error
and propagates nothing to its caller in either script; consequently the
process exit status is determined by the configuration check alone —
1 when a credential is missing, 0 otherwise — whatever happens during the
run. -/
theorem c9_theorem (e1 : RenewPy.TgEnv) (e2 : DomainsPy.TgEnv)
    (cfg : Config) (fR : Nat → RenewPy.AttemptSpec)
    (fD : Nat → DomainsPy.DAttemptSpec)
    (h1 : RenewPy.postFailed e1.post = true)
    (h1t : e1.tokenSet = true) (h1c : e1.chatIdSet = true)
    (h2 : DomainsPy.curlFailed e2.curl = true)
    (h2t : e2.tokenSet = true) (h2c : e2.chatIdSet = true) :
    (RenewPy.send_telegram_notification e1).propagated = none ∧
    (RenewPy.send_telegram_notification e1).errorLogged = true ∧
    (DomainsPy.tg_send e2).propagated = none ∧
    (DomainsPy.tg_send e2).errorLogged = true ∧
    (RenewPy.run_renewal cfg fR).1 = (if credsMissing cfg then 1 else 0) ∧
    (DomainsPy.dMain cfg fD).1 = (if credsMissing cfg then 1 else 0) := by
  refine ⟨?_, ?_, ?_, ?_, ?_, ?_⟩
  · cases hp : e1.post <;>
      simp [RenewPy.send_telegram_notification, h1t, h1c, hp]
  · cases hp : e1.post
    · rw [hp] at h1
      exact absurd h1 (by simp [RenewPy.postFailed])
    · simp [RenewPy.send_telegram_notification, h1t, h1c, hp]
    · simp [RenewPy.send_telegram_notification, h1t, h1c, hp]
  · cases hp : e2.curl
    · simp only [DomainsPy.tg_send, h2t, h2c, hp, Bool.not_true, Bool.or_self,
        Bool.false_eq_true, if_false]
      split <;> rfl
    · simp [DomainsPy.tg_send, h2t, h2c, hp]
    · simp [DomainsPy.tg_send, h2t, h2c, hp]
  · cases hp : e2.curl
    · rw [hp] at h2
      simp only [DomainsPy.curlFailed] at h2
      simp [DomainsPy.tg_send, h2t, h2c, hp, h2]
    · simp [DomainsPy.tg_send, h2t, h2c, hp]
    · simp [DomainsPy.tg_send, h2t, h2c, hp]
  · by_cases hc : credsMissing cfg <;> simp [RenewPy.run_renewal, hc]
  · by_cases hc : credsMissing cfg <;> simp [DomainsPy.dMain, hc]

/-- C9 witness: the theorem at a timed-out POST, a timed-out curl, and a
valid configuration. -/
theorem c9_witness :
    (RenewPy.send_telegram_notification ⟨true, true, .netError "超时"⟩).propagated
        = none ∧
    (RenewPy.send_telegram_notification ⟨true, true, .netError "超时"⟩).errorLogged
        = true ∧
    (DomainsPy.tg_send ⟨true, true, .timedOut⟩).propagated = none ∧
    (DomainsPy.tg_send ⟨true, true, .timedOut⟩).errorLogged = true ∧
    (RenewPy.run_renewal cfgOk allFailSpecR).1
        = (if credsMissing cfgOk then 1 else 0) ∧
    (DomainsPy.dMain cfgOk allFailSpecD).1
        = (if credsMissing cfgOk then 1 else 0) :=
  c9_theorem ⟨true, true, .netError "超时"⟩ ⟨true, true, .timedOut⟩
    cfgOk allFailSpecR allFailSpecD rfl rfl rfl rfl rfl rfl

/-- C10: `domains.py`'s `do_login` always returns a boolean to its caller
(the enclosing `except Exception` turns every raise into `return False`):
it returns `True` exactly when every step through submitting the password
succeeded — unconditionally once the credentials have been submitted — and
`False` whenever any internal step fails; it never consults whether the
site actually accepted the login. -/
theorem c10_theorem (b : DomainsPy.LoginBehavior) (v : Bool) :
    (DomainsPy.do_login b).1 = DomainsPy.loginStepsOk b ∧
    DomainsPy.do_login { b with siteAcceptedLogin := v } = DomainsPy.do_login b := by
  refine ⟨DomainsPy.do_login_eq_stepsOk b, ?_⟩
  rcases b with ⟨g, ev, et, pv, pt, s⟩
  rfl
